import Mathlib

/-!
Shallow embedding of the financial computation engine of the Budget-Website
repository (src/src/lib/finance.ts and the rent allocator of src/src/App.tsx).

JavaScript numbers are modelled by `JSNum`: either one of the non-finite
values (`NaN`, `Infinity`, `-Infinity`) or an exact rational.  Arithmetic on
values that the code has already clamped to finite numbers is modelled by
exact rational arithmetic; `Math.round` (round half toward positive
infinity) is `jsRound`, `Math.ceil` is `Int.ceil`.
-/

namespace BudgetWebsite

/-- A JavaScript number: a non-finite value or an exact rational. -/
inductive JSNum where
  | nan
  | posInf
  | negInf
  | finite (q : ℚ)
deriving DecidableEq

/-- The closed pay-period enumeration of finance.ts. -/
inductive PayPeriod where
  | Semimonthly
  | Weekly
  | Biweekly
deriving DecidableEq

/-- BillItem of finance.ts: id and label are display-only strings. -/
structure BillItem where
  id : String
  label : String
  amount : JSNum
deriving DecidableEq

/-- PersonFinancialProfile of finance.ts. -/
structure PersonFinancialProfile where
  paychecks : List JSNum
  payPeriod : PayPeriod
  bills : List BillItem
  groceries : JSNum
  gas : JSNum
  savingsRate : JSNum
  wantsRate : JSNum
  startingDebt : JSNum
  startingSavings : JSNum

/-- MONTHS_IN_YEAR of finance.ts. -/
def MONTHS_IN_YEAR : ℚ := 12

/-- MONTHLY_FACTORS of finance.ts: the per-period monthly conversion table. -/
def MONTHLY_FACTORS : PayPeriod → ℚ
  | .Semimonthly => 2
  | .Weekly => 52 / MONTHS_IN_YEAR
  | .Biweekly => 26 / MONTHS_IN_YEAR

/-- The positivity part of clampCurrency, on an already-finite number. -/
def clampQ (value : ℚ) : ℚ := if 0 < value then value else 0

/-- clampCurrency of finance.ts: `Number.isFinite(value) && value > 0 ? value : 0`. -/
def clampCurrency : JSNum → ℚ
  | .finite q => clampQ q
  | _ => 0

/-- JavaScript `Math.round`: round half toward positive infinity, that is
the floor of q + 1/2 (stated via the executable `Rat.floor`;
`jsRound_eq_floor` below identifies it with the mathematical floor). -/
def jsRound (q : ℚ) : ℤ := (q + 1 / 2).floor

/-- roundCurrency of finance.ts: `Math.round(value * 100) / 100`. -/
def roundCurrency (value : ℚ) : ℚ := (jsRound (value * 100) : ℚ) / 100

/-- average of finance.ts: clamp each entry, 0 for an empty list, else mean. -/
def average (values : List JSNum) : ℚ :=
  let cleaned := values.map clampCurrency
  if cleaned.length = 0 then 0
  else cleaned.foldl (fun acc v => acc + v) 0 / (cleaned.length : ℚ)

/-- monthlyFromPay of finance.ts; the `!factor` throw branch is the
`Except.error` case (for a rational factor, `!factor` is `factor = 0`). -/
def monthlyFromPay (averagePaycheck : JSNum) (period : PayPeriod) : Except String ℚ :=
  let normalized := clampCurrency averagePaycheck
  let factor := MONTHLY_FACTORS period
  if factor = 0 then Except.error "Unknown pay period"
  else Except.ok (roundCurrency (normalized * factor))

/-- sum of finance.ts: fold adding the clamped value of each entry. -/
def sum (values : List JSNum) : ℚ :=
  values.foldl (fun acc value => acc + clampCurrency value) 0

/-- clampBetween of finance.ts: non-finite values collapse to the minimum,
finite ones are clamped into the interval. -/
def clampBetween (value : JSNum) (lo hi : ℚ) : ℚ :=
  match value with
  | .finite q => min (max q lo) hi
  | _ => lo

/-- BudgetPersonResult of finance.ts.  The two `Record<string, number>`
maps are modelled as association lists in insertion order. -/
structure BudgetPersonResult where
  monthlyIncome : ℚ
  rent : ℚ
  bills : ℚ
  groceries : ℚ
  gas : ℚ
  savings : ℚ
  wants : ℚ
  debt : ℚ
  totals : List (String × ℚ)
  percentages : List (String × ℚ)
  needsPercentage : ℚ
  wantsPercentage : ℚ
  savingsDebtPercentage : ℚ
deriving DecidableEq

/-- The body of computeBudgetPerson after monthlyIncome has been computed
(factored out so that the result's fields have definitional equations). -/
def budgetBody (monthlyIncome : ℚ) (person : PersonFinancialProfile) (rentShare : JSNum) :
    BudgetPersonResult :=
      let rent := clampCurrency rentShare
      let bills := roundCurrency (sum (person.bills.map BillItem.amount))
      let groceries := roundCurrency (clampCurrency person.groceries)
      let gas := roundCurrency (clampCurrency person.gas)
      let savings := roundCurrency (clampQ (monthlyIncome * clampBetween person.savingsRate 0 1))
      let wants := roundCurrency (clampQ (monthlyIncome * clampBetween person.wantsRate 0 1))
      let remaining := monthlyIncome - (rent + bills + groceries + gas + savings + wants)
      let debt := roundCurrency (if 0 < remaining then remaining else 0)
      let totals : List (String × ℚ) :=
        [("Rent", rent), ("Bills", bills), ("Groceries", groceries), ("Gas", gas),
         ("Savings", savings), ("Wants", wants), ("Debt", debt)]
      let base := if 0 < monthlyIncome then monthlyIncome else 1
      let percentages := totals.map fun kv => (kv.1, min 100 (roundCurrency (kv.2 / base * 100)))
      let needs := rent + bills + groceries + gas
      let wantsBucket := wants
      let savingsDebt := savings + debt
      { monthlyIncome := monthlyIncome, rent := rent, bills := bills,
        groceries := groceries, gas := gas, savings := savings, wants := wants,
        debt := debt, totals := totals, percentages := percentages,
        needsPercentage :=
          if 0 < monthlyIncome then roundCurrency (needs / monthlyIncome * 100) else 0,
        wantsPercentage :=
          if 0 < monthlyIncome then roundCurrency (wantsBucket / monthlyIncome * 100) else 0,
        savingsDebtPercentage :=
          if 0 < monthlyIncome then roundCurrency (savingsDebt / monthlyIncome * 100) else 0 }

/-- computeBudgetPerson of finance.ts.  The thrown error of monthlyFromPay
propagates through the `Except`. -/
def computeBudgetPerson (person : PersonFinancialProfile) (rentShare : JSNum) :
    Except String BudgetPersonResult :=
  (monthlyFromPay (.finite (average person.paychecks)) person.payPeriod).map
    fun monthlyIncome => budgetBody monthlyIncome person rentShare

/-- The monthly income that computeBudgetPerson derives from the profile. -/
def incomeOf (p : PersonFinancialProfile) : ℚ :=
  roundCurrency (clampCurrency (.finite (average p.paychecks)) * MONTHLY_FACTORS p.payPeriod)

/-- The payoff month count: a natural number or the `Infinity` sentinel. -/
inductive PayoffMonths where
  | fin (n : ℕ)
  | infinity
deriving DecidableEq

/-- One `{ month, amount }` entry of the debt series. -/
structure DebtPoint where
  month : ℕ
  amount : ℚ
deriving DecidableEq

/-- PayoffResult of finance.ts. -/
structure PayoffResult where
  months : PayoffMonths
  debtSeries : List DebtPoint
deriving DecidableEq

/-- The in-place mutation `series[series.length - 1].amount = 0` of
payoffMonths: set the last amount to exactly 0. -/
def zeroLastAmount : List DebtPoint → List DebtPoint
  | [] => []
  | [p] => [{ month := p.month, amount := 0 }]
  | p :: q :: rest => p :: zeroLastAmount (q :: rest)

/-- payoffMonths of finance.ts. -/
def payoffMonths (startingDebt monthlyPayment : JSNum) : PayoffResult :=
  let debt := clampCurrency startingDebt
  let payment := clampCurrency monthlyPayment
  if debt = 0 then { months := .fin 0, debtSeries := [] }
  else if payment ≤ 0 then { months := .infinity, debtSeries := [] }
  else
    let months := (⌈debt / payment⌉).toNat
    let series := (List.range (months + 1)).map fun month =>
      ({ month := month, amount := roundCurrency (max 0 (debt - payment * month)) } : DebtPoint)
    { months := .fin months, debtSeries := zeroLastAmount series }

/-- SavingsPoint of finance.ts. -/
structure SavingsPoint where
  month : ℕ
  amount : ℚ
deriving DecidableEq

/-- SavingsProjectionInput of finance.ts. -/
structure SavingsProjectionInput where
  startingSavings : JSNum
  monthlySavings : JSNum
  months : ℕ
  debtContribution : JSNum
  payoff : PayoffResult

/-- The guard of the savingsProjection loop body:
`Number.isFinite(payoff.months) && payoff.months > 0 && debtRoll > 0 && month > payoff.months`. -/
def debtRollApplies (pm : PayoffMonths) (debtRoll : ℚ) (month : ℕ) : Bool :=
  match pm with
  | .infinity => false
  | .fin n => decide (0 < n) && decide (0 < debtRoll) && decide (n < month)

/-- The `for (let month = 1; month <= months; month += 1)` loop of
savingsProjection, by the number of remaining iterations. -/
def savingsLoop (monthly debtRoll : ℚ) (pm : PayoffMonths) :
    ℕ → ℕ → ℚ → List SavingsPoint
  | 0, _, _ => []
  | remaining + 1, month, balance =>
    let balance := balance + monthly
    let balance := if debtRollApplies pm debtRoll month then balance + debtRoll else balance
    { month := month, amount := roundCurrency balance } ::
      savingsLoop monthly debtRoll pm remaining (month + 1) balance

/-- savingsProjection of finance.ts. -/
def savingsProjection (input : SavingsProjectionInput) : List SavingsPoint :=
  let baseSavings := clampCurrency input.startingSavings
  let monthly := clampCurrency input.monthlySavings
  let debtRoll := clampCurrency input.debtContribution
  savingsLoop monthly debtRoll input.payoff.months input.months 1 baseSavings

/-- rentSharesFair of App.tsx, abstracted over the per-person monthly
incomes and the rent; `peopleCount` is `persons.length || 1`. -/
def rentSharesFair (incomes : List ℚ) (rent : ℚ) : List ℚ :=
  let totalIncome := incomes.foldl (fun acc value => acc + value) 0
  let peopleCount : ℚ := if incomes.length = 0 then 1 else (incomes.length : ℚ)
  incomes.map fun income =>
    if totalIncome ≤ 0 then rent / peopleCount
    else (income / totalIncome) * rent

/-- Replacing a negative or non-finite entry by 0 (used to state the
sanitation behaviour of `average`). -/
def sanitize : JSNum → JSNum
  | .finite q => if 0 ≤ q then .finite q else .finite 0
  | _ => .finite 0

/-- A rational that is a whole number of cents. -/
def CentsQ (q : ℚ) : Prop := ∃ z : ℤ, q * 100 = (z : ℚ)

/-! Basic lemmas about the clamping and rounding helpers. -/

lemma jsRound_eq_floor (q : ℚ) : jsRound q = ⌊q + 1 / 2⌋ := by
  unfold jsRound
  rw [Rat.floor_def, Rat.floor_def']

lemma clampQ_nonneg (q : ℚ) : 0 ≤ clampQ q := by
  unfold clampQ
  split
  · linarith
  · exact le_refl 0

lemma clampQ_eq_of_nonneg {q : ℚ} (h : 0 ≤ q) : clampQ q = q := by
  unfold clampQ
  split
  · rfl
  · linarith

lemma clampCurrency_nonneg (v : JSNum) : 0 ≤ clampCurrency v := by
  cases v <;> simp [clampCurrency] <;> try exact le_refl 0
  exact clampQ_nonneg _

lemma roundCurrency_nonneg {q : ℚ} (h : 0 ≤ q) : 0 ≤ roundCurrency q := by
  unfold roundCurrency
  rw [jsRound_eq_floor]
  apply div_nonneg _ (by norm_num)
  have : (0 : ℤ) ≤ ⌊q * 100 + 1 / 2⌋ := Int.le_floor.mpr (by push_cast; linarith)
  exact_mod_cast this

lemma roundCurrency_cents (q : ℚ) : CentsQ (roundCurrency q) := by
  refine ⟨jsRound (q * 100), ?_⟩
  unfold roundCurrency
  field_simp

lemma roundCurrency_eq_self {q : ℚ} (h : CentsQ q) : roundCurrency q = q := by
  obtain ⟨z, hz⟩ := h
  unfold roundCurrency
  rw [jsRound_eq_floor, hz, Int.floor_int_add, show ⌊(1 : ℚ) / 2⌋ = 0 by norm_num, add_zero]
  have h100 : (100 : ℚ) ≠ 0 := by norm_num
  field_simp at hz ⊢
  linarith

lemma roundCurrency_zero : roundCurrency 0 = 0 := by
  unfold roundCurrency
  rw [jsRound_eq_floor]
  norm_num

lemma CentsQ_add {a b : ℚ} (ha : CentsQ a) (hb : CentsQ b) : CentsQ (a + b) := by
  obtain ⟨x, hx⟩ := ha
  obtain ⟨y, hy⟩ := hb
  exact ⟨x + y, by push_cast; rw [add_mul, hx, hy]⟩

lemma CentsQ_sub {a b : ℚ} (ha : CentsQ a) (hb : CentsQ b) : CentsQ (a - b) := by
  obtain ⟨x, hx⟩ := ha
  obtain ⟨y, hy⟩ := hb
  exact ⟨x - y, by push_cast; rw [sub_mul, hx, hy]⟩

lemma foldl_add_eq (l : List ℚ) (c : ℚ) : l.foldl (fun acc v => acc + v) c = c + l.sum := by
  induction l generalizing c with
  | nil => simp
  | cons x xs ih => simp [ih, List.sum_cons]; ring

lemma sum_foldl (values : List JSNum) (c : ℚ) :
    values.foldl (fun acc value => acc + clampCurrency value) c
      = c + (values.map clampCurrency).sum := by
  induction values generalizing c with
  | nil => simp
  | cons x xs ih => simp [ih, List.sum_cons]; ring

lemma sum_eq_map_sum (values : List JSNum) : sum values = (values.map clampCurrency).sum := by
  unfold sum
  rw [sum_foldl, zero_add]

lemma list_sum_map_mul (l : List ℚ) (c : ℚ) : (l.map (fun i => i * c)).sum = l.sum * c := by
  induction l with
  | nil => simp
  | cons x xs ih => simp [List.sum_cons, ih]; ring

lemma MONTHLY_FACTORS_nonneg (period : PayPeriod) : 0 ≤ MONTHLY_FACTORS period := by
  cases period <;> norm_num [MONTHLY_FACTORS, MONTHS_IN_YEAR]

lemma monthlyFromPay_eq (avg : JSNum) (period : PayPeriod) :
    monthlyFromPay avg period
      = Except.ok (roundCurrency (clampCurrency avg * MONTHLY_FACTORS period)) := by
  cases period <;> simp [monthlyFromPay, MONTHLY_FACTORS, MONTHS_IN_YEAR] <;> norm_num

lemma computeBudgetPerson_eq (p : PersonFinancialProfile) (s : JSNum) :
    computeBudgetPerson p s = Except.ok (budgetBody (incomeOf p) p s) := by
  rw [computeBudgetPerson, monthlyFromPay_eq]
  rfl

lemma incomeOf_nonneg (p : PersonFinancialProfile) : 0 ≤ incomeOf p :=
  roundCurrency_nonneg (mul_nonneg (clampCurrency_nonneg _) (MONTHLY_FACTORS_nonneg _))

lemma incomeOf_cents (p : PersonFinancialProfile) : CentsQ (incomeOf p) :=
  roundCurrency_cents _

/-! Claims about the income normalizer. -/

/-- C10: for every number and every pay period of the closed enumeration,
monthlyFromPay never reaches the throw branch, because every entry of the
MONTHLY_FACTORS table is nonzero; it always returns the rounded product. -/
theorem monthlyFromPay_never_throws (avg : JSNum) (period : PayPeriod) :
    MONTHLY_FACTORS period ≠ 0 ∧
    monthlyFromPay avg period
      = Except.ok (roundCurrency (clampCurrency avg * MONTHLY_FACTORS period)) := by
  cases period <;>
    refine ⟨by norm_num [MONTHLY_FACTORS, MONTHS_IN_YEAR], ?_⟩ <;>
    simp [monthlyFromPay, MONTHLY_FACTORS, MONTHS_IN_YEAR] <;> norm_num

/-- C5: for every non-negative finite average paycheck, monthlyFromPay applies
the factor 52/12 for Weekly, 2 for Semimonthly and 26/12 for Biweekly, and
rounds half-up to cents (jsRound is round half toward positive infinity). -/
theorem monthlyFromPay_factors (q : ℚ) (h : 0 ≤ q) :
    monthlyFromPay (.finite q) .Weekly = Except.ok (roundCurrency (q * (52 / 12))) ∧
    monthlyFromPay (.finite q) .Semimonthly = Except.ok (roundCurrency (q * 2)) ∧
    monthlyFromPay (.finite q) .Biweekly = Except.ok (roundCurrency (q * (26 / 12))) := by
  have hc : clampCurrency (.finite q) = q := clampQ_eq_of_nonneg h
  refine ⟨?_, ?_, ?_⟩ <;>
    simp [monthlyFromPay, MONTHLY_FACTORS, MONTHS_IN_YEAR, hc] <;> norm_num

/-- Witness for C5 at the concrete paycheck 3. -/
theorem monthlyFromPay_factors_witness :
    monthlyFromPay (.finite 3) .Weekly = Except.ok (roundCurrency (3 * (52 / 12))) ∧
    monthlyFromPay (.finite 3) .Semimonthly = Except.ok (roundCurrency (3 * 2)) ∧
    monthlyFromPay (.finite 3) .Biweekly = Except.ok (roundCurrency (3 * (26 / 12))) :=
  monthlyFromPay_factors 3 (by norm_num)

lemma clampCurrency_sanitize (v : JSNum) : clampCurrency (sanitize v) = clampCurrency v := by
  cases v with
  | finite q =>
    by_cases h : 0 ≤ q
    · simp [sanitize, h]
    · have hq : ¬ 0 < q := by linarith [lt_of_not_le h]
      simp [sanitize, h, clampCurrency, clampQ, hq]
  | nan => rfl
  | posInf => rfl
  | negInf => rfl

lemma average_map_finite (l : List ℚ) (h : ∀ q ∈ l, 0 ≤ q) :
    average (l.map JSNum.finite) = l.sum / (l.length : ℚ) := by
  have hmap : (l.map JSNum.finite).map clampCurrency = l := by
    rw [List.map_map]
    calc l.map (clampCurrency ∘ JSNum.finite)
        = l.map id := List.map_congr_left (fun q hq => clampQ_eq_of_nonneg (h q hq))
      _ = l := List.map_id l
  cases l with
  | nil => simp [average]
  | cons x xs =>
    simp only [average, hmap]
    rw [foldl_add_eq, zero_add]
    simp

/-- C7: average of the empty sequence is 0; for a sequence of non-negative
finite numbers the average is the sum divided by the count; and any negative
or non-finite entry is treated as 0 before averaging. -/
theorem average_spec (xs : List JSNum) (l : List ℚ) (h : ∀ q ∈ l, 0 ≤ q) :
    average [] = 0 ∧
    average (l.map JSNum.finite) = l.sum / (l.length : ℚ) ∧
    average xs = average (xs.map sanitize) := by
  refine ⟨by simp [average], average_map_finite l h, ?_⟩
  have hmap : (xs.map sanitize).map clampCurrency = xs.map clampCurrency := by
    rw [List.map_map]
    exact List.map_congr_left (fun v _ => clampCurrency_sanitize v)
  simp only [average, hmap]

/-- Witness for C7: a mixed list with a non-finite and a negative entry. -/
theorem average_spec_witness :
    average [] = 0 ∧
    average ([(1 : ℚ), 3].map JSNum.finite) = [(1 : ℚ), 3].sum / (([(1 : ℚ), 3].length : ℚ)) ∧
    average [JSNum.nan, .finite (-5), .finite 2]
      = average ([JSNum.nan, .finite (-5), .finite 2].map sanitize) :=
  average_spec [JSNum.nan, .finite (-5), .finite 2] [(1 : ℚ), 3] (by decide)

/-- C6: with strictly positive total income each fair rent share is
rent * income / totalIncome and the shares sum exactly to the rent; with
non-positive total income the rent is split evenly across all persons. -/
theorem rentSharesFair_spec (incomes : List ℚ) (rent : ℚ) :
    (0 < incomes.sum →
      rentSharesFair incomes rent
        = incomes.map (fun income => rent * income / incomes.sum) ∧
      (rentSharesFair incomes rent).sum = rent) ∧
    (incomes.sum ≤ 0 →
      rentSharesFair incomes rent
        = incomes.map (fun _ => rent / (incomes.length : ℚ))) := by
  have htotal : incomes.foldl (fun acc value => acc + value) 0 = incomes.sum := by
    rw [foldl_add_eq, zero_add]
  constructor
  · intro hpos
    have hne : incomes.sum ≠ 0 := ne_of_gt hpos
    have hnotle : ¬ incomes.sum ≤ 0 := not_le.mpr hpos
    have hform : rentSharesFair incomes rent
        = incomes.map (fun income => income * (rent / incomes.sum)) := by
      simp only [rentSharesFair, htotal, hnotle, if_false]
      exact List.map_congr_left (fun income _ => by ring)
    constructor
    · rw [hform]
      exact List.map_congr_left (fun income _ => by ring)
    · rw [hform, list_sum_map_mul]
      field_simp
  · intro hle
    cases incomes with
    | nil => rfl
    | cons x xs =>
      have hlen : (x :: xs).length ≠ 0 := by simp
      simp only [rentSharesFair, htotal, hle, if_true, hlen, if_false]

/-- Witness for C6: both branches at concrete incomes. -/
theorem rentSharesFair_spec_witness :
    (rentSharesFair [100, 300] 1000
        = [(100 : ℚ), 300].map (fun income => 1000 * income / [(100 : ℚ), 300].sum) ∧
      (rentSharesFair [100, 300] 1000).sum = 1000) ∧
    rentSharesFair [0, 0] 500 = [(0 : ℚ), 0].map (fun _ => 500 / (([(0 : ℚ), 0].length : ℚ))) :=
  ⟨(rentSharesFair_spec [100, 300] 1000).1 (by norm_num),
   (rentSharesFair_spec [0, 0] 500).2 (by norm_num)⟩

/-! Claims about the budget allocator. -/

/-- Profile with a single paycheck of 50 (monthly income 100) and everything
else zero, used in concrete witnesses. -/
def profA : PersonFinancialProfile :=
  { paychecks := [.finite 50], payPeriod := .Semimonthly, bills := [],
    groceries := .finite 0, gas := .finite 0, savingsRate := .finite 0,
    wantsRate := .finite 0, startingDebt := .finite 0, startingSavings := .finite 0 }

/-- Profile with a single paycheck of 1/4 (monthly income 1/2). -/
def profB : PersonFinancialProfile :=
  { profA with paychecks := [.finite (1 / 4)] }

/-- C1 (amended): debt is never negative; whenever the rent share is a whole
number of cents and the six named categories sum to at most monthlyIncome,
the seven category totals sum to monthlyIncome; and whenever the six
categories exceed monthlyIncome, debt equals 0. -/
theorem budget_debt_conservation (p : PersonFinancialProfile) (s : JSNum) :
    ∀ r, computeBudgetPerson p s = Except.ok r →
      0 ≤ r.debt ∧
      (CentsQ (clampCurrency s) →
        r.rent + r.bills + r.groceries + r.gas + r.savings + r.wants ≤ r.monthlyIncome →
        r.rent + r.bills + r.groceries + r.gas + r.savings + r.wants + r.debt
          = r.monthlyIncome) ∧
      (r.monthlyIncome < r.rent + r.bills + r.groceries + r.gas + r.savings + r.wants →
        r.debt = 0) := by
  intro r hr
  rw [computeBudgetPerson_eq] at hr
  have hr2 : budgetBody (incomeOf p) p s = r := Except.ok.inj hr
  subst hr2
  set B := budgetBody (incomeOf p) p s with hB
  have hM : B.monthlyIncome = incomeOf p := rfl
  have hRent : B.rent = clampCurrency s := rfl
  have hBills : B.bills = roundCurrency (sum (p.bills.map BillItem.amount)) := rfl
  have hGro : B.groceries = roundCurrency (clampCurrency p.groceries) := rfl
  have hGas : B.gas = roundCurrency (clampCurrency p.gas) := rfl
  have hSav : B.savings
      = roundCurrency (clampQ (incomeOf p * clampBetween p.savingsRate 0 1)) := rfl
  have hWan : B.wants
      = roundCurrency (clampQ (incomeOf p * clampBetween p.wantsRate 0 1)) := rfl
  have hD : B.debt
      = roundCurrency
          (if 0 < incomeOf p - (B.rent + B.bills + B.groceries + B.gas + B.savings + B.wants)
            then incomeOf p - (B.rent + B.bills + B.groceries + B.gas + B.savings + B.wants)
            else 0) := rfl
  refine ⟨?_, ?_, ?_⟩
  · rw [hD]
    apply roundCurrency_nonneg
    split
    · linarith
    · linarith
  · intro hcents h6
    have hSc : CentsQ (B.rent + B.bills + B.groceries + B.gas + B.savings + B.wants) := by
      refine CentsQ_add (CentsQ_add (CentsQ_add (CentsQ_add (CentsQ_add ?_ ?_) ?_) ?_) ?_) ?_
      · rw [hRent]; exact hcents
      · rw [hBills]; exact roundCurrency_cents _
      · rw [hGro]; exact roundCurrency_cents _
      · rw [hGas]; exact roundCurrency_cents _
      · rw [hSav]; exact roundCurrency_cents _
      · rw [hWan]; exact roundCurrency_cents _
    have hrem : CentsQ (incomeOf p
        - (B.rent + B.bills + B.groceries + B.gas + B.savings + B.wants)) :=
      CentsQ_sub (incomeOf_cents p) hSc
    rw [hM] at h6 ⊢
    by_cases h0 : 0 < incomeOf p
        - (B.rent + B.bills + B.groceries + B.gas + B.savings + B.wants)
    · have hd : B.debt = incomeOf p
          - (B.rent + B.bills + B.groceries + B.gas + B.savings + B.wants) := by
        rw [hD, if_pos h0]
        exact roundCurrency_eq_self hrem
      rw [hd]; ring
    · have hd : B.debt = 0 := by rw [hD, if_neg h0, roundCurrency_zero]
      rw [hd]
      have : incomeOf p
          - (B.rent + B.bills + B.groceries + B.gas + B.savings + B.wants) ≤ 0 :=
        not_lt.mp h0
      linarith
  · intro hlt
    rw [hM] at hlt
    have h0 : ¬ 0 < incomeOf p
        - (B.rent + B.bills + B.groceries + B.gas + B.savings + B.wants) := by linarith
    rw [hD, if_neg h0, roundCurrency_zero]

/-- The budget computed for profA with the non-cent rent share 1/1000. -/
def budgetA1 : BudgetPersonResult := budgetBody (incomeOf profA) profA (.finite (1 / 1000))

/-- C1 counterexample: with rent share 1/1000 the six categories sum to
1/1000 which is at most the monthly income 100, yet the seven totals sum to
100.001, not 100: the rent share is never rounded to cents while the debt
residual is, so exact conservation fails. -/
theorem budget_conservation_counterexample :
    computeBudgetPerson profA (.finite (1 / 1000)) = Except.ok budgetA1 ∧
    budgetA1.rent + budgetA1.bills + budgetA1.groceries + budgetA1.gas
      + budgetA1.savings + budgetA1.wants ≤ budgetA1.monthlyIncome ∧
    budgetA1.rent + budgetA1.bills + budgetA1.groceries + budgetA1.gas
      + budgetA1.savings + budgetA1.wants + budgetA1.debt ≠ budgetA1.monthlyIncome :=
  ⟨computeBudgetPerson_eq profA (.finite (1 / 1000)),
   by norm_num [budgetA1, budgetBody, profA, profB, incomeOf, average, sum, clampCurrency, clampQ, clampBetween, MONTHLY_FACTORS, MONTHS_IN_YEAR, roundCurrency, jsRound_eq_floor],
   by norm_num [budgetA1, budgetBody, profA, profB, incomeOf, average, sum, clampCurrency, clampQ, clampBetween, MONTHLY_FACTORS, MONTHS_IN_YEAR, roundCurrency, jsRound_eq_floor]⟩

/-- The budget computed for profA with rent share 100. -/
def budgetA2 : BudgetPersonResult := budgetBody (incomeOf profA) profA (.finite 100)

/-- Witness for C1 at profA with the whole-cent rent share 100. -/
theorem budget_debt_conservation_witness :
    0 ≤ budgetA2.debt ∧
    budgetA2.rent + budgetA2.bills + budgetA2.groceries + budgetA2.gas
      + budgetA2.savings + budgetA2.wants + budgetA2.debt = budgetA2.monthlyIncome := by
  have h := budget_debt_conservation profA (.finite 100) budgetA2
    (computeBudgetPerson_eq profA (.finite 100))
  refine ⟨h.1, h.2.1 ⟨10000, by norm_num [clampCurrency, clampQ]⟩ ?_⟩
  norm_num [budgetA2, budgetBody, profA, profB, incomeOf, average, sum, clampCurrency, clampQ, clampBetween, MONTHLY_FACTORS, MONTHS_IN_YEAR, roundCurrency, jsRound_eq_floor]

/-- C3 (amended): the percentage map lists, per category in insertion order,
min(100, round(value / base * 100, 2)) where base is monthlyIncome when it
is positive and 1 otherwise (this differs from max(monthlyIncome, 1) when
0 < monthlyIncome < 1); every percentage is at most 100, and the
computation is well defined at zero income. -/
theorem budget_percentages (p : PersonFinancialProfile) (s : JSNum) :
    ∀ r, computeBudgetPerson p s = Except.ok r →
      r.percentages =
        [("Rent", min 100 (roundCurrency
            (r.rent / (if 0 < r.monthlyIncome then r.monthlyIncome else 1) * 100))),
         ("Bills", min 100 (roundCurrency
            (r.bills / (if 0 < r.monthlyIncome then r.monthlyIncome else 1) * 100))),
         ("Groceries", min 100 (roundCurrency
            (r.groceries / (if 0 < r.monthlyIncome then r.monthlyIncome else 1) * 100))),
         ("Gas", min 100 (roundCurrency
            (r.gas / (if 0 < r.monthlyIncome then r.monthlyIncome else 1) * 100))),
         ("Savings", min 100 (roundCurrency
            (r.savings / (if 0 < r.monthlyIncome then r.monthlyIncome else 1) * 100))),
         ("Wants", min 100 (roundCurrency
            (r.wants / (if 0 < r.monthlyIncome then r.monthlyIncome else 1) * 100))),
         ("Debt", min 100 (roundCurrency
            (r.debt / (if 0 < r.monthlyIncome then r.monthlyIncome else 1) * 100)))] ∧
      (r.percentages.all fun kv => decide (kv.2 ≤ 100)) = true := by
  intro r hr
  rw [computeBudgetPerson_eq] at hr
  have hr2 : budgetBody (incomeOf p) p s = r := Except.ok.inj hr
  subst hr2
  refine ⟨rfl, ?_⟩
  rw [show (budgetBody (incomeOf p) p s).percentages =
      [("Rent", min 100 (roundCurrency
          ((budgetBody (incomeOf p) p s).rent
            / (if 0 < incomeOf p then incomeOf p else 1) * 100))),
       ("Bills", min 100 (roundCurrency
          ((budgetBody (incomeOf p) p s).bills
            / (if 0 < incomeOf p then incomeOf p else 1) * 100))),
       ("Groceries", min 100 (roundCurrency
          ((budgetBody (incomeOf p) p s).groceries
            / (if 0 < incomeOf p then incomeOf p else 1) * 100))),
       ("Gas", min 100 (roundCurrency
          ((budgetBody (incomeOf p) p s).gas
            / (if 0 < incomeOf p then incomeOf p else 1) * 100))),
       ("Savings", min 100 (roundCurrency
          ((budgetBody (incomeOf p) p s).savings
            / (if 0 < incomeOf p then incomeOf p else 1) * 100))),
       ("Wants", min 100 (roundCurrency
          ((budgetBody (incomeOf p) p s).wants
            / (if 0 < incomeOf p then incomeOf p else 1) * 100))),
       ("Debt", min 100 (roundCurrency
          ((budgetBody (incomeOf p) p s).debt
            / (if 0 < incomeOf p then incomeOf p else 1) * 100)))] from rfl]
  simp only [List.all_cons, List.all_nil, Bool.and_true, Bool.and_eq_true,
    decide_eq_true_eq]
  exact ⟨min_le_left _ _, min_le_left _ _, min_le_left _ _, min_le_left _ _,
    min_le_left _ _, min_le_left _ _, min_le_left _ _⟩

/-- Witness for C3 at profA with rent share 100. -/
theorem budget_percentages_witness :
    (budgetA2.percentages.all fun kv => decide (kv.2 ≤ 100)) = true :=
  (budget_percentages profA (.finite 100) budgetA2
    (computeBudgetPerson_eq profA (.finite 100))).2

/-- The budget computed for profB with rent share 1/4. -/
def budgetB1 : BudgetPersonResult := budgetBody (incomeOf profB) profB (.finite (1 / 4))

/-- C3 counterexample: at monthly income 1/2 with rent share 1/4 the code
divides by the income itself (Rent percentage 50), while the claimed formula
divides by max(monthlyIncome, 1) = 1 (Rent percentage 25). -/
theorem budget_percentages_counterexample :
    computeBudgetPerson profB (.finite (1 / 4)) = Except.ok budgetB1 ∧
    budgetB1.monthlyIncome = 1 / 2 ∧
    budgetB1.percentages.head? = some ("Rent", 50) ∧
    min 100 (roundCurrency (budgetB1.rent / max budgetB1.monthlyIncome 1 * 100)) = 25 ∧
    ((50 : ℚ)) ≠ 25 :=
  ⟨computeBudgetPerson_eq profB (.finite (1 / 4)),
   by norm_num [budgetB1, budgetBody, profA, profB, incomeOf, average, sum, clampCurrency, clampQ, clampBetween, MONTHLY_FACTORS, MONTHS_IN_YEAR, roundCurrency, jsRound_eq_floor],
   by norm_num [budgetB1, budgetBody, profA, profB, incomeOf, average, sum, clampCurrency, clampQ, clampBetween, MONTHLY_FACTORS, MONTHS_IN_YEAR, roundCurrency, jsRound_eq_floor],
   by norm_num [budgetB1, budgetBody, profA, profB, incomeOf, average, sum, clampCurrency, clampQ, clampBetween, MONTHLY_FACTORS, MONTHS_IN_YEAR, roundCurrency, jsRound_eq_floor],
   by norm_num⟩

/-- C9: every numeric field of the returned BudgetPersonResult is
non-negative, for every profile and every rent share, including negative or
non-finite rent shares. -/
theorem budget_result_nonneg (p : PersonFinancialProfile) (s : JSNum) :
    ∀ r, computeBudgetPerson p s = Except.ok r →
      0 ≤ r.monthlyIncome ∧ 0 ≤ r.rent ∧ 0 ≤ r.bills ∧ 0 ≤ r.groceries ∧ 0 ≤ r.gas ∧
      0 ≤ r.savings ∧ 0 ≤ r.wants ∧ 0 ≤ r.debt ∧
      (r.totals.all fun kv => decide (0 ≤ kv.2)) = true ∧
      (r.percentages.all fun kv => decide (0 ≤ kv.2)) = true ∧
      0 ≤ r.needsPercentage ∧ 0 ≤ r.wantsPercentage ∧ 0 ≤ r.savingsDebtPercentage := by
  intro r hr
  rw [computeBudgetPerson_eq] at hr
  have hr2 : budgetBody (incomeOf p) p s = r := Except.ok.inj hr
  subst hr2
  set B := budgetBody (incomeOf p) p s with hB
  have h0mi : 0 ≤ incomeOf p := incomeOf_nonneg p
  have hM : B.monthlyIncome = incomeOf p := rfl
  have hRent : B.rent = clampCurrency s := rfl
  have hBills : B.bills = roundCurrency (sum (p.bills.map BillItem.amount)) := rfl
  have hGro : B.groceries = roundCurrency (clampCurrency p.groceries) := rfl
  have hGas : B.gas = roundCurrency (clampCurrency p.gas) := rfl
  have hSav : B.savings
      = roundCurrency (clampQ (incomeOf p * clampBetween p.savingsRate 0 1)) := rfl
  have hWan : B.wants
      = roundCurrency (clampQ (incomeOf p * clampBetween p.wantsRate 0 1)) := rfl
  have hD : B.debt
      = roundCurrency
          (if 0 < incomeOf p - (B.rent + B.bills + B.groceries + B.gas + B.savings + B.wants)
            then incomeOf p - (B.rent + B.bills + B.groceries + B.gas + B.savings + B.wants)
            else 0) := rfl
  have hsum0 : 0 ≤ sum (p.bills.map BillItem.amount) := by
    rw [sum_eq_map_sum]
    apply List.sum_nonneg
    intro x hx
    obtain ⟨v, _, rfl⟩ := List.mem_map.mp hx
    exact clampCurrency_nonneg v
  have h1 : 0 ≤ B.rent := by rw [hRent]; exact clampCurrency_nonneg s
  have h2 : 0 ≤ B.bills := by rw [hBills]; exact roundCurrency_nonneg hsum0
  have h3 : 0 ≤ B.groceries := by
    rw [hGro]; exact roundCurrency_nonneg (clampCurrency_nonneg _)
  have h4 : 0 ≤ B.gas := by
    rw [hGas]; exact roundCurrency_nonneg (clampCurrency_nonneg _)
  have h5 : 0 ≤ B.savings := by rw [hSav]; exact roundCurrency_nonneg (clampQ_nonneg _)
  have h6 : 0 ≤ B.wants := by rw [hWan]; exact roundCurrency_nonneg (clampQ_nonneg _)
  have h7 : 0 ≤ B.debt := by
    rw [hD]
    apply roundCurrency_nonneg
    split
    · linarith
    · linarith
  have hbase : (0 : ℚ) < (if 0 < incomeOf p then incomeOf p else 1) := by
    split
    · linarith
    · norm_num
  have hpentry : ∀ v : ℚ, 0 ≤ v →
      0 ≤ min 100 (roundCurrency (v / (if 0 < incomeOf p then incomeOf p else 1) * 100)) := by
    intro v hv
    refine le_min (by norm_num) (roundCurrency_nonneg ?_)
    exact mul_nonneg (div_nonneg hv (le_of_lt hbase)) (by norm_num)
  have haggr : ∀ v : ℚ, 0 ≤ v →
      0 ≤ (if 0 < incomeOf p then roundCurrency (v / incomeOf p * 100) else 0) := by
    intro v hv
    split
    · apply roundCurrency_nonneg
      apply mul_nonneg (div_nonneg hv h0mi) (by norm_num)
    · exact le_refl 0
  refine ⟨hM ▸ h0mi, h1, h2, h3, h4, h5, h6, h7, ?_, ?_, ?_, ?_, ?_⟩
  · rw [show B.totals = [("Rent", B.rent), ("Bills", B.bills), ("Groceries", B.groceries),
        ("Gas", B.gas), ("Savings", B.savings), ("Wants", B.wants), ("Debt", B.debt)]
      from rfl]
    simp only [List.all_cons, List.all_nil, Bool.and_true, Bool.and_eq_true,
      decide_eq_true_eq]
    exact ⟨h1, h2, h3, h4, h5, h6, h7⟩
  · rw [show B.percentages =
        [("Rent", min 100 (roundCurrency
            (B.rent / (if 0 < incomeOf p then incomeOf p else 1) * 100))),
         ("Bills", min 100 (roundCurrency
            (B.bills / (if 0 < incomeOf p then incomeOf p else 1) * 100))),
         ("Groceries", min 100 (roundCurrency
            (B.groceries / (if 0 < incomeOf p then incomeOf p else 1) * 100))),
         ("Gas", min 100 (roundCurrency
            (B.gas / (if 0 < incomeOf p then incomeOf p else 1) * 100))),
         ("Savings", min 100 (roundCurrency
            (B.savings / (if 0 < incomeOf p then incomeOf p else 1) * 100))),
         ("Wants", min 100 (roundCurrency
            (B.wants / (if 0 < incomeOf p then incomeOf p else 1) * 100))),
         ("Debt", min 100 (roundCurrency
            (B.debt / (if 0 < incomeOf p then incomeOf p else 1) * 100)))] from rfl]
    simp only [List.all_cons, List.all_nil, Bool.and_true, Bool.and_eq_true,
      decide_eq_true_eq]
    exact ⟨hpentry _ h1, hpentry _ h2, hpentry _ h3, hpentry _ h4,
      hpentry _ h5, hpentry _ h6, hpentry _ h7⟩
  · rw [show B.needsPercentage = (if 0 < incomeOf p then
        roundCurrency ((B.rent + B.bills + B.groceries + B.gas) / incomeOf p * 100)
        else 0) from rfl]
    exact haggr _ (by linarith)
  · rw [show B.wantsPercentage = (if 0 < incomeOf p then
        roundCurrency (B.wants / incomeOf p * 100) else 0) from rfl]
    exact haggr _ h6
  · rw [show B.savingsDebtPercentage = (if 0 < incomeOf p then
        roundCurrency ((B.savings + B.debt) / incomeOf p * 100) else 0) from rfl]
    exact haggr _ (by linarith)

/-- Witness for C9 at profA with a negative rent share. -/
theorem budget_result_nonneg_witness :
    0 ≤ (budgetBody (incomeOf profA) profA (.finite (-3))).monthlyIncome ∧
    0 ≤ (budgetBody (incomeOf profA) profA (.finite (-3))).rent ∧
    0 ≤ (budgetBody (incomeOf profA) profA (.finite (-3))).bills ∧
    0 ≤ (budgetBody (incomeOf profA) profA (.finite (-3))).groceries ∧
    0 ≤ (budgetBody (incomeOf profA) profA (.finite (-3))).gas ∧
    0 ≤ (budgetBody (incomeOf profA) profA (.finite (-3))).savings ∧
    0 ≤ (budgetBody (incomeOf profA) profA (.finite (-3))).wants ∧
    0 ≤ (budgetBody (incomeOf profA) profA (.finite (-3))).debt ∧
    ((budgetBody (incomeOf profA) profA (.finite (-3))).totals.all
      fun kv => decide (0 ≤ kv.2)) = true ∧
    ((budgetBody (incomeOf profA) profA (.finite (-3))).percentages.all
      fun kv => decide (0 ≤ kv.2)) = true ∧
    0 ≤ (budgetBody (incomeOf profA) profA (.finite (-3))).needsPercentage ∧
    0 ≤ (budgetBody (incomeOf profA) profA (.finite (-3))).wantsPercentage ∧
    0 ≤ (budgetBody (incomeOf profA) profA (.finite (-3))).savingsDebtPercentage :=
  budget_result_nonneg profA (.finite (-3)) (budgetBody (incomeOf profA) profA (.finite (-3)))
    (computeBudgetPerson_eq profA (.finite (-3)))

/-! Claims about the debt payoff scheduler. -/

lemma zeroLastAmount_length (l : List DebtPoint) : (zeroLastAmount l).length = l.length := by
  induction l with
  | nil => rfl
  | cons p rest ih =>
    cases rest with
    | nil => rfl
    | cons q rest2 => simpa [zeroLastAmount] using ih

lemma zeroLastAmount_getElem (l : List DebtPoint) (k : ℕ) :
    (zeroLastAmount l)[k]?
      = (l[k]?).map (fun p => if k + 1 = l.length then { month := p.month, amount := 0 } else p) := by
  induction l generalizing k with
  | nil => simp [zeroLastAmount]
  | cons p rest ih =>
    cases rest with
    | nil =>
      cases k with
      | zero => simp [zeroLastAmount]
      | succ k => simp [zeroLastAmount]
    | cons q rest2 =>
      cases k with
      | zero =>
        have hne : ¬ (0 + 1 = (p :: q :: rest2).length) := by simp
        simp [zeroLastAmount, hne]
      | succ k =>
        have hcond : (k + 1 + 1 = (p :: q :: rest2).length) ↔ (k + 1 = (q :: rest2).length) := by
          simp
        simp only [zeroLastAmount, List.getElem?_cons_succ, ih]
        cases hqr : (q :: rest2)[k]? with
        | none => simp
        | some x =>
          simp only [Option.map_some']
          by_cases hk : k + 1 = (q :: rest2).length
          · rw [if_pos hk, if_pos (by simpa [hcond] using hk)]
          · rw [if_neg hk, if_neg (by simpa [hcond] using hk)]

/-- C4 (amended): payoffMonths returns months = 0 with an empty series when
the clamped debt is 0; the Infinity sentinel with an empty series when the
clamped debt is positive and the clamped payment is ≤ 0; and otherwise
months = ceil(debt / payment) with a series for month 0..months where each
balance is max(0, debt − payment·month) rounded to cents, the final entry is
forced to exactly 0, and the first entry is the starting debt rounded to
cents (not the raw starting debt, which may not be a whole number of
cents). -/
theorem payoffMonths_spec (d m : JSNum) :
    (clampCurrency d = 0 →
      payoffMonths d m = { months := .fin 0, debtSeries := [] }) ∧
    (0 < clampCurrency d → clampCurrency m ≤ 0 →
      payoffMonths d m = { months := .infinity, debtSeries := [] }) ∧
    (0 < clampCurrency d → 0 < clampCurrency m →
      (payoffMonths d m).months
        = .fin ((⌈clampCurrency d / clampCurrency m⌉).toNat) ∧
      (payoffMonths d m).debtSeries.length
        = (⌈clampCurrency d / clampCurrency m⌉).toNat + 1 ∧
      (∀ k, k < (⌈clampCurrency d / clampCurrency m⌉).toNat →
        (payoffMonths d m).debtSeries[k]?
          = some { month := k,
                   amount := roundCurrency
                     (max 0 (clampCurrency d - clampCurrency m * k)) }) ∧
      (payoffMonths d m).debtSeries[(⌈clampCurrency d / clampCurrency m⌉).toNat]?
        = some { month := (⌈clampCurrency d / clampCurrency m⌉).toNat, amount := 0 } ∧
      (payoffMonths d m).debtSeries[0]?
        = some { month := 0, amount := roundCurrency (clampCurrency d) }) := by
  refine ⟨?_, ?_, ?_⟩
  · intro h
    simp [payoffMonths, h]
  · intro hd hm
    have h1 : ¬ clampCurrency d = 0 := ne_of_gt hd
    simp [payoffMonths, h1, hm]
  · intro hd hm
    have h1 : ¬ clampCurrency d = 0 := ne_of_gt hd
    have h2 : ¬ clampCurrency m ≤ 0 := not_le.mpr hm
    have hpm : payoffMonths d m =
        { months := .fin ((⌈clampCurrency d / clampCurrency m⌉).toNat),
          debtSeries := zeroLastAmount
            ((List.range ((⌈clampCurrency d / clampCurrency m⌉).toNat + 1)).map
              fun month =>
                ({ month := month,
                   amount := roundCurrency
                     (max 0 (clampCurrency d - clampCurrency m * month)) } : DebtPoint)) } := by
      simp only [payoffMonths, if_neg h1, if_neg h2]
    have hlen : ((List.range ((⌈clampCurrency d / clampCurrency m⌉).toNat + 1)).map
        (fun month =>
          ({ month := month,
             amount := roundCurrency
               (max 0 (clampCurrency d - clampCurrency m * month)) } : DebtPoint))).length
        = (⌈clampCurrency d / clampCurrency m⌉).toNat + 1 := by
      simp
    have hkey : ∀ k, k < (⌈clampCurrency d / clampCurrency m⌉).toNat →
        (payoffMonths d m).debtSeries[k]?
          = some { month := k,
                   amount := roundCurrency
                     (max 0 (clampCurrency d - clampCurrency m * k)) } := by
      intro k hk
      rw [hpm]
      rw [zeroLastAmount_getElem, hlen]
      rw [List.getElem?_map, List.getElem?_range (by omega)]
      simp only [Option.map_some']
      rw [if_neg (by omega)]
    have hMpos : 0 < (⌈clampCurrency d / clampCurrency m⌉).toNat := by
      have hc : 0 < ⌈clampCurrency d / clampCurrency m⌉ :=
        Int.ceil_pos.mpr (div_pos hd hm)
      omega
    refine ⟨by rw [hpm], ?_, hkey, ?_, ?_⟩
    · rw [hpm]
      simpa [zeroLastAmount_length] using hlen
    · rw [hpm]
      rw [zeroLastAmount_getElem, hlen]
      rw [List.getElem?_map, List.getElem?_range (by omega)]
      simp
    · have h0 := hkey 0 hMpos
      rw [Nat.cast_zero, mul_zero, sub_zero, max_eq_right (le_of_lt hd)] at h0
      exact h0

/-- Witness for C4 at the spec's own example payoffMonths(1200, 100). -/
theorem payoffMonths_spec_witness :
    (payoffMonths (.finite 1200) (.finite 100)).months = .fin 12 ∧
    (payoffMonths (.finite 1200) (.finite 100)).debtSeries.length = 13 ∧
    (payoffMonths (.finite 1200) (.finite 100)).debtSeries[0]?
      = some { month := 0, amount := roundCurrency (clampCurrency (.finite 1200)) } ∧
    (payoffMonths (.finite 1200) (.finite 100)).debtSeries[12]?
      = some { month := 12, amount := 0 } := by
  have hc12 : clampCurrency (.finite 1200) = 1200 := by norm_num [clampCurrency, clampQ]
  have hc1 : clampCurrency (.finite 100) = 100 := by norm_num [clampCurrency, clampQ]
  have h := (payoffMonths_spec (.finite 1200) (.finite 100)).2.2
    (by rw [hc12]; norm_num) (by rw [hc1]; norm_num)
  have hM : (⌈clampCurrency (.finite 1200) / clampCurrency (.finite 100)⌉).toNat = 12 := by
    rw [hc12, hc1, show ⌈(1200 : ℚ) / 100⌉ = 12 from by norm_num]
    rfl
  refine ⟨?_, ?_, h.2.2.2.2, ?_⟩
  · rw [h.1, hM]
  · rw [h.2.1, hM]
  · have h4 := h.2.2.2.1
    rw [hM] at h4
    exact h4

/-- C4 counterexample: for startingDebt 1/1000 (one tenth of a cent) and
payment 1, the first series entry has amount 0 (the rounded debt), not the
starting debt 1/1000. -/
theorem payoffMonths_first_entry_counterexample :
    (payoffMonths (.finite (1 / 1000)) (.finite 1)).debtSeries[0]?
      = some { month := 0, amount := 0 } ∧
    clampCurrency (.finite (1 / 1000)) = 1 / 1000 ∧
    (0 : ℚ) ≠ 1 / 1000 := by
  have hcd : clampCurrency (.finite (1 / 1000)) = 1 / 1000 := by
    norm_num [clampCurrency, clampQ]
  have hcm : clampCurrency (.finite 1) = 1 := by norm_num [clampCurrency, clampQ]
  refine ⟨?_, hcd, by norm_num⟩
  have hd1 : ¬ clampCurrency (.finite (1 / 1000)) = 0 := by rw [hcd]; norm_num
  have hp1 : ¬ clampCurrency (.finite 1) ≤ 0 := by rw [hcm]; norm_num
  have hM : (⌈clampCurrency (.finite (1 / 1000)) / clampCurrency (.finite 1)⌉).toNat = 1 := by
    rw [hcd, hcm, show ⌈(1 : ℚ) / 1000 / 1⌉ = 1 from by
      rw [Int.ceil_eq_iff] <;> norm_num]
    rfl
  have hround : roundCurrency (max 0 (clampCurrency (.finite (1 / 1000))
      - clampCurrency (.finite 1) * ((0 : ℕ) : ℚ))) = 0 := by
    rw [hcd, hcm]
    rw [show max (0 : ℚ) (1 / 1000 - 1 * ((0 : ℕ) : ℚ)) = 1 / 1000 from by
      push_cast
      rw [mul_zero, sub_zero]
      exact max_eq_right (by norm_num)]
    rw [roundCurrency, jsRound_eq_floor]
    norm_num
  simp only [payoffMonths, if_neg hd1, if_neg hp1, hM]
  rw [show List.range (1 + 1) = [0, 1] from by decide]
  simp only [List.map_cons, List.map_nil, zeroLastAmount]
  simp only [List.getElem?_cons_zero, Option.some.injEq]
  rw [DebtPoint.mk.injEq]
  exact ⟨rfl, by simpa using hround⟩

/-! Claims about the savings projector. -/

lemma savingsLoop_no_roll (monthly debtRoll : ℚ) (pm : PayoffMonths)
    (hpm : ∀ month, debtRollApplies pm debtRoll month = false) :
    ∀ (n start : ℕ) (bal : ℚ),
      savingsLoop monthly debtRoll pm n start bal
        = (List.range n).map (fun i =>
            { month := start + i,
              amount := roundCurrency (bal + (i + 1) * monthly) }) := by
  intro n
  induction n with
  | zero => intro start bal; simp [savingsLoop]
  | succ n ih =>
    intro start bal
    simp only [savingsLoop, hpm, Bool.false_eq_true, if_false]
    rw [ih, List.range_succ_eq_map, List.map_cons, List.map_map]
    congr 1
    · norm_num
    · refine List.map_congr_left ?_
      intro i _
      simp only [Function.comp]
      rw [SavingsPoint.mk.injEq]
      constructor
      · omega
      · congr 1
        push_cast
        ring

/-- C2 (amended): when payoff.months = 0 the guard `payoff.months > 0` is
false every month, so the debt contribution is never folded in: every
point's balance is the starting savings plus month × monthlySavings only.
(The contribution is added, from month payoff.months + 1 on, only when
0 < payoff.months is finite and the contribution is positive.) -/
theorem savingsProjection_debtfree (input : SavingsProjectionInput)
    (h : input.payoff.months = .fin 0) :
    savingsProjection input
      = (List.range input.months).map (fun i =>
          { month := i + 1,
            amount := roundCurrency (clampCurrency input.startingSavings
              + (i + 1) * clampCurrency input.monthlySavings) }) := by
  simp only [savingsProjection, h]
  rw [savingsLoop_no_roll (clampCurrency input.monthlySavings)
    (clampCurrency input.debtContribution) (.fin 0) (fun month => rfl)]
  refine List.map_congr_left ?_
  intro i _
  rw [SavingsPoint.mk.injEq]
  exact ⟨by omega, rfl⟩

/-- Projection input with zero savings, zero monthly amount, three months, a
positive debt contribution and an already-debt-free payoff. -/
def projInputZero : SavingsProjectionInput :=
  { startingSavings := .finite 0, monthlySavings := .finite 0, months := 3,
    debtContribution := .finite 100, payoff := { months := .fin 0, debtSeries := [] } }

/-- C2 counterexample: with payoff.months = 0 and debtContribution = 100 the
projection stays at 0 every month — the contribution is never added because
the code's guard also requires payoff.months > 0 — whereas folding the
contribution in from month 1 onward would give 100, 200, 300. -/
theorem savingsProjection_debtfree_counterexample :
    savingsProjection projInputZero
      = [{ month := 1, amount := 0 }, { month := 2, amount := 0 },
         { month := 3, amount := 0 }] ∧
    (savingsProjection projInputZero).map SavingsPoint.amount ≠ [100, 200, 300] := by
  have hz : savingsProjection projInputZero
      = [{ month := 1, amount := 0 }, { month := 2, amount := 0 },
         { month := 3, amount := 0 }] := by
    norm_num [savingsProjection, projInputZero, savingsLoop, debtRollApplies,
      clampCurrency, clampQ, roundCurrency_zero]
  refine ⟨hz, ?_⟩
  rw [hz]
  norm_num

/-- Witness for C2 at the concrete projInputZero. -/
theorem savingsProjection_debtfree_witness :
    savingsProjection projInputZero
      = (List.range projInputZero.months).map (fun i =>
          { month := i + 1,
            amount := roundCurrency (clampCurrency projInputZero.startingSavings
              + (i + 1) * clampCurrency projInputZero.monthlySavings) }) :=
  savingsProjection_debtfree projInputZero rfl

lemma savingsLoop_length (monthly debtRoll : ℚ) (pm : PayoffMonths) :
    ∀ (n start : ℕ) (bal : ℚ), (savingsLoop monthly debtRoll pm n start bal).length = n := by
  intro n
  induction n with
  | zero => intro start bal; rfl
  | succ n ih =>
    intro start bal
    simp only [savingsLoop, List.length_cons, ih]

lemma savingsLoop_months_map (monthly debtRoll : ℚ) (pm : PayoffMonths) :
    ∀ (n start : ℕ) (bal : ℚ),
      (savingsLoop monthly debtRoll pm n start bal).map SavingsPoint.month
        = List.range' start n := by
  intro n
  induction n with
  | zero => intro start bal; rfl
  | succ n ih =>
    intro start bal
    simp only [savingsLoop, List.map_cons, ih]
    rw [List.range'_succ]

lemma savingsLoop_amount_cents (monthly debtRoll : ℚ) (pm : PayoffMonths) :
    ∀ (n start : ℕ) (bal : ℚ) (pt : SavingsPoint),
      pt ∈ savingsLoop monthly debtRoll pm n start bal → CentsQ pt.amount := by
  intro n
  induction n with
  | zero =>
    intro start bal pt h
    simp [savingsLoop] at h
  | succ n ih =>
    intro start bal pt h
    simp only [savingsLoop] at h
    rcases List.mem_cons.mp h with h1 | h2
    · subst h1
      exact roundCurrency_cents _
    · exact ih _ _ _ h2

/-- Projection input from the spec's example: 500 starting, 100 monthly,
12 months, no debt contribution, already debt-free. -/
def projInputC : SavingsProjectionInput :=
  { startingSavings := .finite 500, monthlySavings := .finite 100, months := 12,
    debtContribution := .finite 0, payoff := { months := .fin 0, debtSeries := [] } }

lemma savingsProjection_projInputC_eval :
    savingsProjection projInputC
      = [{ month := 1, amount := 600 }, { month := 2, amount := 700 },
         { month := 3, amount := 800 }, { month := 4, amount := 900 },
         { month := 5, amount := 1000 }, { month := 6, amount := 1100 },
         { month := 7, amount := 1200 }, { month := 8, amount := 1300 },
         { month := 9, amount := 1400 }, { month := 10, amount := 1500 },
         { month := 11, amount := 1600 }, { month := 12, amount := 1700 }] := by
  norm_num [savingsProjection, projInputC, savingsLoop, debtRollApplies,
    clampCurrency, clampQ, roundCurrency, jsRound_eq_floor]

/-- C8: savingsProjection returns exactly `months` points numbered
1..months (no month-0 point), every amount is a whole number of cents
(rounded after each accumulation step), and on the spec's example
(500, 100, 12, no contribution) the 12th point's amount is 1700. -/
theorem savingsProjection_points (input : SavingsProjectionInput) :
    (savingsProjection input).length = input.months ∧
    (savingsProjection input).map SavingsPoint.month = List.range' 1 input.months ∧
    (∀ pt ∈ savingsProjection input, CentsQ pt.amount) ∧
    (savingsProjection projInputC).length = 12 ∧
    ((savingsProjection projInputC).map SavingsPoint.amount).getLast? = some 1700 := by
  refine ⟨?_, ?_, ?_, ?_, ?_⟩
  · simp only [savingsProjection]
    exact savingsLoop_length _ _ _ _ _ _
  · simp only [savingsProjection]
    exact savingsLoop_months_map _ _ _ _ _ _
  · intro pt hpt
    simp only [savingsProjection] at hpt
    exact savingsLoop_amount_cents _ _ _ _ _ _ _ hpt
  · rw [savingsProjection_projInputC_eval]
    rfl
  · rw [savingsProjection_projInputC_eval]
    rfl

/-- Witness for C8 at projInputC, with the first point as membership
witness. -/
theorem savingsProjection_points_witness :
    (savingsProjection projInputC).length = projInputC.months ∧
    CentsQ (({ month := 1, amount := 600 } : SavingsPoint).amount) := by
  refine ⟨(savingsProjection_points projInputC).1, ?_⟩
  refine (savingsProjection_points projInputC).2.2.1 { month := 1, amount := 600 } ?_
  rw [savingsProjection_projInputC_eval]
  simp

end BudgetWebsite
